import Mathlib

/-!
Shallow embedding of `src/mcp_server.py`: a PostgreSQL MCP server exposing
four tool handlers (`list_tables`, `get_table_schema`, `execute_query`,
`execute_safe_query`) plus environment-derived connection configuration
(`DB_CONFIG`).

The asyncpg driver is modelled as an oracle: each handler receives, as
explicit `Except`-valued arguments, the outcome of connection acquisition
(`get_db_connection`) and of each catalog/driver call it performs
(`conn.fetch` / `conn.execute`); a `.error` value stands for the call
raising an exception with that message (`str(e)`).  A handler returns
`Except String Payload` — `.error e` means the Python coroutine propagates
an exception to its caller, `.ok p` means it returns the JSON payload
modelled by `p` — paired with a `ConnTrace` counting how many connections
were opened and closed during the invocation.
-/

/- Python string primitives are modelled structurally over the character
list of a `String`, so that every definition reduces by kernel computation.
Case mapping is ASCII, which covers the SQL keywords these handlers
inspect. -/

deriving instance DecidableEq for Except

/-- Characters of Python `str.strip()`: drop leading and trailing
whitespace. -/
def pyStripChars (l : List Char) : List Char :=
  ((l.dropWhile Char.isWhitespace).reverse.dropWhile Char.isWhitespace).reverse

/-- Python `str.strip()`. -/
def pyStrip (s : String) : String :=
  ⟨pyStripChars s.data⟩

/-- Python `str.upper()` (ASCII case mapping). -/
def pyUpper (s : String) : String :=
  ⟨s.data.map Char.toUpper⟩

/-- Python `str.startswith(pre)` on character lists. -/
def listIsPrefixOf : List Char → List Char → Bool
  | _, [] => true
  | [], _ :: _ => false
  | a :: as, b :: bs => a == b && listIsPrefixOf as bs

/-- Python `str.startswith(pre)`. -/
def pyStartsWith (s pre : String) : Bool :=
  listIsPrefixOf s.data pre.data

/-- Accumulating worker for `pySplit`: `acc` holds the current token's
characters in reverse. -/
def pySplitAux : List Char → List Char → List String
  | [], acc => if acc.isEmpty then [] else [⟨acc.reverse⟩]
  | c :: cs, acc =>
    if c.isWhitespace then
      if acc.isEmpty then pySplitAux cs []
      else (⟨acc.reverse⟩ : String) :: pySplitAux cs []
    else pySplitAux cs (c :: acc)

/-- Python `str.split()` with no arguments: split on runs of whitespace and
drop empty tokens. -/
def pySplit (s : String) : List String :=
  pySplitAux s.data []

/-- The check on line 247/249 and line 306 of `mcp_server.py`:
`query.strip().upper().startswith('SELECT')`. -/
def isSelectQuery (query : String) : Bool :=
  pyStartsWith (pyUpper (pyStrip query)) "SELECT"

/-- One row of a SELECT result, after `dict(row)` and the `default=str`
serialization fallback: an ordered mapping from column names to stringified
values. -/
abbrev Row := List (String × String)

/-- A row of the `information_schema.tables` query in `list_tables`. -/
structure TableRow where
  table_name : String
deriving DecidableEq

/-- A row of the `information_schema.columns` query in `get_table_schema`. -/
structure ColumnRow where
  column_name : String
  data_type : String
  character_maximum_length : Option Int
  is_nullable : String
  column_default : Option String
deriving DecidableEq

/-- A row of the `pg_index` primary-key query in `get_table_schema`. -/
structure PKRow where
  column_name : String
deriving DecidableEq

/-- A row of the foreign-key constraint query in `get_table_schema`. -/
structure FKRow where
  column_name : String
  foreign_table_name : String
  foreign_column_name : String
deriving DecidableEq

/-- A column descriptor as assembled on lines 190-199 of `mcp_server.py`.
`max_length := none` models the `max_length` key being absent from the
Python dict. -/
structure ColumnInfo where
  name : String
  type : String
  nullable : Bool
  default : Option String
  is_primary_key : Bool
  max_length : Option Int
deriving DecidableEq

/-- A foreign-key descriptor as assembled on lines 201-208. -/
structure FKInfo where
  column : String
  references_table : String
  references_column : String
deriving DecidableEq

/-- The JSON payload a handler serializes with `json.dumps`.  `err e st`
models `{"error": e, "status": st}`; `mutation ty n st` models
`{"type": ty, "affected_rows": n, "status": st}`; the others model the
success payloads of the respective handlers. -/
inductive Payload where
  | err (error : String) (status : String)
  | tables (schema : String) (tables : List String) (count : Nat)
  | selectRes (row_count : Nat) (results : List Row)
  | mutation (type : String) (affected_rows : String) (status : String)
  | schemaRes (schema : String) (table : String) (columns : List ColumnInfo)
      (primary_keys : List String) (foreign_keys : List FKInfo)
deriving DecidableEq

/-- How many database connections an invocation opened and closed. -/
structure ConnTrace where
  opened : Nat
  closed : Nat
deriving DecidableEq

/-- The handler `list_tables` (lines 76-111).  `connectR` is the outcome of
`get_db_connection()` (called before the `try` block, so its failure
propagates with no connection to close); `fetchR` the outcome of the
catalog fetch.  On a fetch exception the `except` clause re-raises, and the
`finally` clause closes the connection either way. -/
def list_tables (connectR : Except String Unit)
    (fetchR : Except String (List TableRow)) (schema_name : String) :
    Except String Payload × ConnTrace :=
  match connectR with
  | .error e => (.error e, ⟨0, 0⟩)
  | .ok _ =>
    match fetchR with
    | .error e => (.error e, ⟨1, 1⟩)
    | .ok rows =>
      let tables := rows.map TableRow.table_name
      (.ok (.tables schema_name tables tables.length), ⟨1, 1⟩)

/-- Python truthiness of an `int | None` value: `None` and `0` are falsy. -/
def pyTruthyOptInt : Option Int → Bool
  | none => false
  | some n => n != 0

/-- Lines 190-199: build one column descriptor.  `is_primary_key` is the
Python `in` membership test; `max_length` is added only when
`col['character_maximum_length']` is truthy. -/
def buildColumn (primary_keys : List String) (col : ColumnRow) : ColumnInfo :=
  { name := col.column_name
    type := col.data_type
    nullable := col.is_nullable == "YES"
    default := col.column_default
    is_primary_key := primary_keys.contains col.column_name
    max_length :=
      if pyTruthyOptInt col.character_maximum_length then
        col.character_maximum_length
      else none }

/-- Lines 201-208: reshape a foreign-key row. -/
def fkInfoOfRow (fk : FKRow) : FKInfo :=
  { column := fk.column_name
    references_table := fk.foreign_table_name
    references_column := fk.foreign_column_name }

/-- The handler `get_table_schema` (lines 115-226).  `columnsR`, `pksR`,
`fksR` are the outcomes of the three catalog fetches, in program order.
Exceptions inside the `try` are converted to an error payload; the
connection is acquired before the `try` (its failure propagates) and closed
in the `finally` on every other path. -/
def get_table_schema (connectR : Except String Unit)
    (columnsR : Except String (List ColumnRow))
    (pksR : Except String (List PKRow))
    (fksR : Except String (List FKRow))
    (table_name : String) (schema_name : String) :
    Except String Payload × ConnTrace :=
  match connectR with
  | .error e => (.error e, ⟨0, 0⟩)
  | .ok _ =>
    match columnsR with
    | .error e => (.ok (.err e "failed"), ⟨1, 1⟩)
    | .ok columns =>
      if columns.isEmpty then
        (.ok (.err ("Table \x27" ++ table_name ++ "\x27 not found in schema \x27"
          ++ schema_name ++ "\x27") "failed"), ⟨1, 1⟩)
      else
        match pksR with
        | .error e => (.ok (.err e "failed"), ⟨1, 1⟩)
        | .ok pks =>
          let primary_keys := pks.map PKRow.column_name
          match fksR with
          | .error e => (.ok (.err e "failed"), ⟨1, 1⟩)
          | .ok fks =>
            (.ok (.schemaRes schema_name table_name
              (columns.map (buildColumn primary_keys)) primary_keys
              (fks.map fkInfoOfRow)), ⟨1, 1⟩)

/-- The message of the Python `IndexError` raised by subscripting the empty
result of `str.split()`. -/
def indexErrMsg : String := "list index out of range"

/-- The handler `execute_query` (lines 230-289).  `fetchR` is the outcome of
`conn.fetch` on the SELECT path, `execR` of `conn.execute` on the mutation
path.  On the mutation path the code runs, in order:
`affected = status.split()[-1] if status else "0"` and then
`query_upper.split()[0]` (first in a log line, then in the payload) — each
subscript raises `IndexError` when its token list is empty, which the
`except` clause converts to an error payload.  The connection is acquired
before the `try` (its failure propagates) and closed in the `finally`. -/
def execute_query (connectR : Except String Unit)
    (fetchR : Except String (List Row)) (execR : Except String String)
    (query : String) (params : Option (List String)) :
    Except String Payload × ConnTrace :=
  match connectR with
  | .error e => (.error e, ⟨0, 0⟩)
  | .ok _ =>
    let query_upper := pyUpper (pyStrip query)
    if pyStartsWith query_upper "SELECT" then
      match fetchR with
      | .error e => (.ok (.err e "failed"), ⟨1, 1⟩)
      | .ok rows => (.ok (.selectRes rows.length rows), ⟨1, 1⟩)
    else
      match execR with
      | .error e => (.ok (.err e "failed"), ⟨1, 1⟩)
      | .ok status =>
        if status = "" then
          match (pySplit query_upper).head? with
          | none => (.ok (.err indexErrMsg "failed"), ⟨1, 1⟩)
          | some verb => (.ok (.mutation verb "0" "success"), ⟨1, 1⟩)
        else
          match (pySplit status).getLast? with
          | none => (.ok (.err indexErrMsg "failed"), ⟨1, 1⟩)
          | some affected =>
            match (pySplit query_upper).head? with
            | none => (.ok (.err indexErrMsg "failed"), ⟨1, 1⟩)
            | some verb => (.ok (.mutation verb affected "success"), ⟨1, 1⟩)

/-- The handler `execute_safe_query` (lines 293-313): reject any query whose
trimmed, uppercased text does not start with SELECT, before any connection
is attempted; otherwise delegate to `execute_query` with no parameters. -/
def execute_safe_query (connectR : Except String Unit)
    (fetchR : Except String (List Row)) (execR : Except String String)
    (query : String) : Except String Payload × ConnTrace :=
  if isSelectQuery query then
    execute_query connectR fetchR execR query none
  else
    (.ok (.err "Only SELECT queries are allowed with this tool" "failed"), ⟨0, 0⟩)

/-- The process environment, as read by `os.getenv`. -/
structure Env where
  get : String → Option String

/-- The connection settings after startup. `database`, `user`, `password`
may be `none`, mirroring `os.getenv(name, None)`. -/
structure DBConfig where
  host : String
  port : Int
  database : Option String
  user : Option String
  password : Option String
deriving DecidableEq

/-- The message of the `TypeError` that Python `int(None)` raises. -/
def intNoneTypeErrorMsg : String :=
  "int() argument must be a string, a bytes-like object or a real number, not NoneType"

/-- Base-10 value of a digit run; `none` when a non-digit appears. -/
def natOfDigitsAux : List Char → Nat → Option Nat
  | [], acc => some acc
  | c :: cs, acc =>
    if c.isDigit then natOfDigitsAux cs (acc * 10 + (c.toNat - 48)) else none

/-- Base-10 value of a nonempty digit run. -/
def natOfDigits? : List Char → Option Nat
  | [] => none
  | c :: cs => natOfDigitsAux (c :: cs) 0

/-- Python `int(s)` on a string: surrounding whitespace is allowed, then an
optional sign and a nonempty base-10 digit run are required. -/
def pyInt? (s : String) : Option Int :=
  match pyStripChars s.data with
  | '-' :: ds => (natOfDigits? ds).map (fun n => -(n : Int))
  | '+' :: ds => (natOfDigits? ds).map (fun n => (n : Int))
  | ds => (natOfDigits? ds).map (fun n => (n : Int))

/-- Lines 48-54 of `mcp_server.py`: build `DB_CONFIG` at import time.
`int(os.getenv("DB_PORT", None))` raises at startup when `DB_PORT` is
absent (`int(None)` is a `TypeError`) or non-numeric; the other three
settings are stored as possibly-`None` without any check. -/
def buildDBConfig (env : Env) : Except String DBConfig :=
  let host := (env.get "DB_HOST").getD "localhost"
  match env.get "DB_PORT" with
  | none => .error intNoneTypeErrorMsg
  | some p =>
    match pyInt? p with
    | none => .error ("invalid literal for int() with base 10: " ++ p)
    | some port =>
      .ok { host := host, port := port, database := env.get "DB_DATABASE",
            user := env.get "DB_USER", password := env.get "DB_PASSWORD" }

/-- Whether a handler result carries a SELECT-shaped success payload. -/
def Payload.isSelectShaped : Payload → Bool
  | .selectRes _ _ => true
  | _ => false

/-- Whether the pair returned by a handler is a SELECT-shaped payload. -/
def resultIsSelectShaped (r : Except String Payload × ConnTrace) : Bool :=
  match r.fst with
  | .ok p => p.isSelectShaped
  | .error _ => false

/-- C1: for every query string whose trimmed, uppercased text does not start
with "SELECT", `execute_safe_query` returns the payload
`{error: "Only SELECT queries are allowed with this tool", status: "failed"}`
and opens no database connection (the trace is `⟨0, 0⟩` for every oracle,
including a failing one, because `get_db_connection` is never called). -/
theorem execute_safe_query_rejects_non_select
    (connectR : Except String Unit) (fetchR : Except String (List Row))
    (execR : Except String String) (q : String)
    (h : isSelectQuery q = false) :
    execute_safe_query connectR fetchR execR q =
      (.ok (.err "Only SELECT queries are allowed with this tool" "failed"), ⟨0, 0⟩) := by
  simp [execute_safe_query, h]

/-- Witness for C1 at the concrete query "DROP TABLE users". -/
theorem execute_safe_query_rejects_non_select_witness :
    isSelectQuery "DROP TABLE users" = false ∧
    execute_safe_query (.ok ()) (.ok []) (.ok "") "DROP TABLE users" =
      (.ok (.err "Only SELECT queries are allowed with this tool" "failed"), ⟨0, 0⟩) :=
  ⟨by decide, execute_safe_query_rejects_non_select _ _ _ _ (by decide)⟩

/-- C3: `execute_query` classifies a query as SELECT iff the trimmed,
uppercased text starts with "SELECT" — with a successful driver, the result
is SELECT-shaped exactly in that case; the check is case- and
whitespace-insensitive, so "select 1", "  SELECT 1" and "SeLeCt 1" all
classify as SELECT and other statements classify as mutations. -/
theorem execute_query_select_classification :
    (∀ (q status : String) (rows : List Row) (ps : Option (List String)),
      resultIsSelectShaped (execute_query (.ok ()) (.ok rows) (.ok status) q ps)
        = isSelectQuery q) ∧
    isSelectQuery "select 1" = true ∧
    isSelectQuery "  SELECT 1" = true ∧
    isSelectQuery "SeLeCt 1" = true ∧
    isSelectQuery "INSERT INTO users VALUES (1)" = false ∧
    (∀ q, isSelectQuery q = pyStartsWith (pyUpper (pyStrip q)) "SELECT") := by
  refine ⟨?_, by decide, by decide, by decide, by decide, fun q => rfl⟩
  intro q status rows ps
  simp only [execute_query, isSelectQuery]
  by_cases h : pyStartsWith (pyUpper (pyStrip q)) "SELECT"
  · simp [h, resultIsSelectShaped, Payload.isSelectShaped]
  · simp only [Bool.not_eq_true] at h
    simp only [h, Bool.false_eq_true, if_false]
    split
    · split <;> rfl
    · split
      · rfl
      · split <;> rfl

/-- C4: for every query classified as a mutation (and having a first token,
which the claim presupposes by naming it), when the driver's execution
status string is nonempty and has a last whitespace-separated token,
`execute_query` returns `{type: first token of the trimmed uppercased
query, affected_rows: last token of the status, status: "success"}`. -/
theorem execute_query_mutation_payload
    (q status verb affected : String) (fetchR : Except String (List Row))
    (ps : Option (List String))
    (hsel : isSelectQuery q = false)
    (hverb : (pySplit (pyUpper (pyStrip q))).head? = some verb)
    (hstatus : status ≠ "")
    (haff : (pySplit status).getLast? = some affected) :
    execute_query (.ok ()) fetchR (.ok status) q ps =
      (.ok (.mutation verb affected "success"), ⟨1, 1⟩) := by
  have h : pyStartsWith (pyUpper (pyStrip q)) "SELECT" = false := hsel
  simp only [execute_query, h, Bool.false_eq_true, if_false]
  rw [if_neg hstatus, haff, hverb]

/-- Witness for C4: the spec's own INSERT example, driver status
"INSERT 0 1". -/
theorem execute_query_mutation_payload_witness :
    execute_query (.ok ()) (.ok []) (.ok "INSERT 0 1")
        "INSERT INTO users (name) VALUES ($1)" (some ["Charlie"]) =
      (.ok (.mutation "INSERT" "1" "success"), ⟨1, 1⟩) :=
  execute_query_mutation_payload _ _ _ _ _ _ (by decide) (by decide)
    (by decide) (by decide)

/-- C5: whenever the column fetch returns no rows, `get_table_schema`
returns (never raises, hence the `.ok`) the payload
`{error: "Table '<table_name>' not found in schema '<schema_name>'",
status: "failed"}`, for every table and schema name. -/
theorem get_table_schema_not_found (t s : String)
    (pksR : Except String (List PKRow)) (fksR : Except String (List FKRow)) :
    get_table_schema (.ok ()) (.ok []) pksR fksR t s =
      (.ok (.err ("Table \x27" ++ t ++ "\x27 not found in schema \x27"
        ++ s ++ "\x27") "failed"), ⟨1, 1⟩) :=
  rfl

/-- C7: every invocation of `list_tables`, `get_table_schema` or
`execute_query` that acquires a connection (`connectR = .ok ()`) closes it
exactly once before returning, on every exit path — success, the
not-found early return, and every exception path. -/
theorem handlers_close_connection_exactly_once
    (fetchT : Except String (List TableRow)) (s1 : String)
    (colsR : Except String (List ColumnRow)) (pksR : Except String (List PKRow))
    (fksR : Except String (List FKRow)) (t s2 : String)
    (fetchR : Except String (List Row)) (execR : Except String String)
    (q : String) (ps : Option (List String)) :
    (list_tables (.ok ()) fetchT s1).snd = ⟨1, 1⟩ ∧
    (get_table_schema (.ok ()) colsR pksR fksR t s2).snd = ⟨1, 1⟩ ∧
    (execute_query (.ok ()) fetchR execR q ps).snd = ⟨1, 1⟩ := by
  refine ⟨?_, ?_, ?_⟩
  · cases fetchT <;> rfl
  · cases colsR with
    | error e => rfl
    | ok cols =>
      cases cols with
      | nil => rfl
      | cons c rest =>
        cases pksR with
        | error e => rfl
        | ok pks => cases fksR <;> rfl
  · simp only [execute_query]
    split
    · cases fetchR <;> rfl
    · split
      · rfl
      · split
        · split <;> rfl
        · split
          · rfl
          · split <;> rfl

/-- C8: for every query whose trimmed, uppercased text starts with
"SELECT", `execute_safe_query` returns exactly what `execute_query` returns
on the same query with no parameters, for every oracle outcome. -/
theorem execute_safe_query_delegates
    (connectR : Except String Unit) (fetchR : Except String (List Row))
    (execR : Except String String) (q : String)
    (h : isSelectQuery q = true) :
    execute_safe_query connectR fetchR execR q =
      execute_query connectR fetchR execR q none := by
  simp [execute_safe_query, h]

/-- Witness for C8 at the spec's leading-whitespace SELECT example. -/
theorem execute_safe_query_delegates_witness :
    execute_safe_query (.ok ()) (.ok [[("id", "1")]]) (.ok "")
        "   SELECT * FROM users" =
      execute_query (.ok ()) (.ok [[("id", "1")]]) (.ok "")
        "   SELECT * FROM users" none :=
  execute_safe_query_delegates _ _ _ _ (by decide)

/-- C10: on the mutation path, an empty (Python-falsy, covering `None`)
driver status string yields `affected_rows = "0"` with a success payload
rather than an `IndexError` from tokenizing the empty status. -/
theorem execute_query_empty_status_affected_zero
    (q verb : String) (fetchR : Except String (List Row))
    (ps : Option (List String))
    (hsel : isSelectQuery q = false)
    (hverb : (pySplit (pyUpper (pyStrip q))).head? = some verb) :
    execute_query (.ok ()) fetchR (.ok "") q ps =
      (.ok (.mutation verb "0" "success"), ⟨1, 1⟩) := by
  have h : pyStartsWith (pyUpper (pyStrip q)) "SELECT" = false := hsel
  simp only [execute_query, h, Bool.false_eq_true, if_false, if_pos]
  rw [hverb]

/-- Witness for C10 at the concrete query "DELETE FROM users". -/
theorem execute_query_empty_status_affected_zero_witness :
    execute_query (.ok ()) (.ok []) (.ok "") "DELETE FROM users" none =
      (.ok (.mutation "DELETE" "0" "success"), ⟨1, 1⟩) :=
  execute_query_empty_status_affected_zero _ _ _ _ (by decide) (by decide)

/-- C2 counterexample: a connection-acquisition exception ("connection
refused") during the database work of `get_table_schema` and
`execute_query` propagates to the caller (`.error`) instead of being
returned as an error payload — `get_db_connection()` is called before the
`try` block in both handlers. -/
theorem connection_fault_propagates_counterexample :
    get_table_schema (.error "connection refused") (.ok []) (.ok []) (.ok [])
        "users" "public" = (.error "connection refused", ⟨0, 0⟩) ∧
    execute_query (.error "connection refused") (.ok []) (.ok "")
        "SELECT 1" none = (.error "connection refused", ⟨0, 0⟩) ∧
    (get_table_schema (.error "connection refused") (.ok []) (.ok []) (.ok [])
        "users" "public").fst ≠ .ok (.err "connection refused" "failed") :=
  ⟨rfl, rfl, by decide⟩

/-- C2 amended: exceptions raised by the catalog/driver calls inside the
`try` block (after the connection is acquired) are caught by
`get_table_schema`, `execute_query` and `execute_safe_query` and returned
as `{error: str(e), status: "failed"}`, while `list_tables` re-raises
them; an exception from connection acquisition itself propagates
unrecovered in all four handlers (for `execute_safe_query`, on its
delegated SELECT path). -/
theorem error_conversion_policy :
    (∀ (e t s : String) pksR fksR,
      get_table_schema (.ok ()) (.error e) pksR fksR t s
        = (.ok (.err e "failed"), ⟨1, 1⟩)) ∧
    (∀ (e t s : String) (c : ColumnRow) rest fksR,
      get_table_schema (.ok ()) (.ok (c :: rest)) (.error e) fksR t s
        = (.ok (.err e "failed"), ⟨1, 1⟩)) ∧
    (∀ (e t s : String) (c : ColumnRow) rest pks,
      get_table_schema (.ok ()) (.ok (c :: rest)) (.ok pks) (.error e) t s
        = (.ok (.err e "failed"), ⟨1, 1⟩)) ∧
    (∀ (e q : String) execR ps, isSelectQuery q = true →
      execute_query (.ok ()) (.error e) execR q ps
        = (.ok (.err e "failed"), ⟨1, 1⟩)) ∧
    (∀ (e q : String) fetchR ps, isSelectQuery q = false →
      execute_query (.ok ()) fetchR (.error e) q ps
        = (.ok (.err e "failed"), ⟨1, 1⟩)) ∧
    (∀ (e q : String) execR, isSelectQuery q = true →
      execute_safe_query (.ok ()) (.error e) execR q
        = (.ok (.err e "failed"), ⟨1, 1⟩)) ∧
    (∀ (e s : String), list_tables (.ok ()) (.error e) s = (.error e, ⟨1, 1⟩)) ∧
    (∀ (e s : String) fT, list_tables (.error e) fT s = (.error e, ⟨0, 0⟩)) ∧
    (∀ (e t s : String) colsR pksR fksR,
      get_table_schema (.error e) colsR pksR fksR t s = (.error e, ⟨0, 0⟩)) ∧
    (∀ (e q : String) fR xR ps,
      execute_query (.error e) fR xR q ps = (.error e, ⟨0, 0⟩)) ∧
    (∀ (e q : String) fR xR, isSelectQuery q = true →
      execute_safe_query (.error e) fR xR q = (.error e, ⟨0, 0⟩)) := by
  refine ⟨fun e t s pksR fksR => rfl, fun e t s c rest fksR => rfl,
    fun e t s c rest pks => rfl, ?_, ?_, ?_, fun e s => rfl, fun e s fT => rfl,
    fun e t s colsR pksR fksR => rfl, fun e q fR xR ps => rfl, ?_⟩
  · intro e q execR ps h
    have h2 : pyStartsWith (pyUpper (pyStrip q)) "SELECT" = true := h
    simp [execute_query, h2]
  · intro e q fetchR ps h
    have h2 : pyStartsWith (pyUpper (pyStrip q)) "SELECT" = false := h
    simp [execute_query, h2]
  · intro e q execR h
    have h2 : pyStartsWith (pyUpper (pyStrip q)) "SELECT" = true := h
    simp [execute_safe_query, isSelectQuery, execute_query, h2]
  · intro e q fR xR h
    simp [execute_safe_query, execute_query, h]

/-- Witness for C2 amended: a driver exception on the SELECT, mutation and
safe paths becomes an error payload; a connection fault on the safe SELECT
path propagates. -/
theorem error_conversion_policy_witness :
    execute_query (.ok ()) (.error "syntax error") (.ok "") "SELECT * FROM t"
        none = (.ok (.err "syntax error" "failed"), ⟨1, 1⟩) ∧
    execute_query (.ok ()) (.ok []) (.error "constraint violation")
        "DELETE FROM t" none = (.ok (.err "constraint violation" "failed"), ⟨1, 1⟩) ∧
    execute_safe_query (.ok ()) (.error "syntax error") (.ok "")
        "SELECT * FROM t" = (.ok (.err "syntax error" "failed"), ⟨1, 1⟩) ∧
    execute_safe_query (.error "connection refused") (.ok []) (.ok "")
        "SELECT 1" = (.error "connection refused", ⟨0, 0⟩) :=
  ⟨error_conversion_policy.2.2.2.1 "syntax error" "SELECT * FROM t" (.ok "")
      none (by decide),
   error_conversion_policy.2.2.2.2.1 "constraint violation" "DELETE FROM t"
      (.ok []) none (by decide),
   error_conversion_policy.2.2.2.2.2.1 "syntax error" "SELECT * FROM t"
      (.ok "") (by decide),
   error_conversion_policy.2.2.2.2.2.2.2.2.2.2 "connection refused" "SELECT 1"
      (.ok []) (.ok "") (by decide)⟩

/-- A catalog row exhibiting Python truthiness on
`character_maximum_length`: the reported value 0 is non-null yet falsy. -/
def colRowZeroLen : ColumnRow :=
  { column_name := "v", data_type := "character varying",
    character_maximum_length := some 0, is_nullable := "YES",
    column_default := none }

/-- C6 counterexample: `get_table_schema` adds `max_length` under Python
truthiness (`if col['character_maximum_length']:`), not under non-nullness:
on a catalog row reporting the non-null length 0 the field is omitted, so
"max_length present iff the report is non-null" fails. -/
theorem max_length_truthiness_counterexample :
    colRowZeroLen.character_maximum_length ≠ none ∧
    (buildColumn [] colRowZeroLen).max_length = none ∧
    (get_table_schema (.ok ()) (.ok [colRowZeroLen]) (.ok []) (.ok [])
        "t" "public").fst =
      .ok (.schemaRes "public" "t"
        [{ name := "v", type := "character varying", nullable := true,
           default := none, is_primary_key := false, max_length := none }]
        [] []) :=
  ⟨by decide, by decide, by decide⟩

/-- C6 amended: in every successful `get_table_schema` result — whose
columns are exactly the catalog rows mapped through `buildColumn` with the
fetched primary-key names — a column has `is_primary_key = true` iff its
name appears in the primary-key list, and carries `max_length` (with the
reported value) iff the catalog reports a truthy `character_maximum_length`,
i.e. one that is non-null and nonzero; on the values PostgreSQL actually
reports there (null or a positive length) truthiness coincides with
non-nullness. -/
theorem schema_column_flags (col : ColumnRow) (pks : List String) :
    ((buildColumn pks col).is_primary_key = true ↔ col.column_name ∈ pks) ∧
    ((buildColumn pks col).max_length ≠ none ↔
      (col.character_maximum_length ≠ none ∧
       col.character_maximum_length ≠ some 0)) ∧
    ((buildColumn pks col).max_length ≠ none →
      (buildColumn pks col).max_length = col.character_maximum_length) ∧
    (∀ (c : ColumnRow) rest pkRows fkRows (t s : String),
      (get_table_schema (.ok ()) (.ok (c :: rest)) (.ok pkRows) (.ok fkRows)
          t s).fst =
        .ok (.schemaRes s t
          ((c :: rest).map (buildColumn (pkRows.map PKRow.column_name)))
          (pkRows.map PKRow.column_name) (fkRows.map fkInfoOfRow))) := by
  refine ⟨?_, ?_, ?_, fun c rest pkRows fkRows t s => rfl⟩
  · simp [buildColumn]
  · cases h : col.character_maximum_length with
    | none => simp [buildColumn, pyTruthyOptInt, h]
    | some n =>
      by_cases hn : n = 0 <;> simp [buildColumn, pyTruthyOptInt, h, hn]
  · cases h : col.character_maximum_length with
    | none => simp [buildColumn, pyTruthyOptInt, h]
    | some n =>
      by_cases hn : n = 0 <;> simp [buildColumn, pyTruthyOptInt, h, hn]

/-- Witness for C6 amended, at a varchar(255) primary-key column. -/
theorem schema_column_flags_witness :
    ((buildColumn ["id"]
      { column_name := "id", data_type := "character varying",
        character_maximum_length := some 255, is_nullable := "NO",
        column_default := none }).max_length ≠ none) ∧
    (buildColumn ["id"]
      { column_name := "id", data_type := "character varying",
        character_maximum_length := some 255, is_nullable := "NO",
        column_default := none }).max_length = some 255 :=
  ⟨by decide,
   (schema_column_flags
      { column_name := "id", data_type := "character varying",
        character_maximum_length := some 255, is_nullable := "NO",
        column_default := none } ["id"]).2.2.1 (by decide)⟩

/-- An environment with DB_PORT, DB_USER and DB_PASSWORD set but
DB_DATABASE absent. -/
def envMissingDatabase : Env :=
  ⟨fun k =>
    if k = "DB_PORT" then some "5432"
    else if k = "DB_USER" then some "alice"
    else if k = "DB_PASSWORD" then some "pw"
    else none⟩

/-- An environment with nothing set. -/
def envEmpty : Env :=
  ⟨fun _ => none⟩

/-- C9 counterexample: with DB_DATABASE absent from the environment,
startup succeeds — `os.getenv("DB_DATABASE", None)` silently stores `None`
in `DB_CONFIG`; the claim that its absence fails the process at startup is
false. -/
theorem db_config_missing_database_counterexample :
    envMissingDatabase.get "DB_DATABASE" = none ∧
    buildDBConfig envMissingDatabase =
      .ok { host := "localhost", port := 5432, database := none,
            user := some "alice", password := some "pw" } :=
  ⟨rfl, by decide⟩

/-- C9 amended: absence of DB_PORT is a startup-time configuration fault —
`int(os.getenv("DB_PORT", None))` raises a `TypeError` at import time,
before any handler runs — whereas DB_DATABASE, DB_USER and DB_PASSWORD are
stored without any check (possibly as `None`), so their absence does not
fail startup. -/
theorem db_config_port_required (env : Env) :
    (env.get "DB_PORT" = none →
      buildDBConfig env = .error intNoneTypeErrorMsg) ∧
    (∀ (p : String) (v : Int), env.get "DB_PORT" = some p → pyInt? p = some v →
      buildDBConfig env =
        .ok { host := (env.get "DB_HOST").getD "localhost", port := v,
              database := env.get "DB_DATABASE", user := env.get "DB_USER",
              password := env.get "DB_PASSWORD" }) := by
  constructor
  · intro h
    simp [buildDBConfig, h]
  · intro p v hp hv
    simp [buildDBConfig, hp, hv]

/-- Witness for C9 amended: an empty environment fails startup on DB_PORT;
an environment lacking only DB_DATABASE starts up successfully. -/
theorem db_config_port_required_witness :
    buildDBConfig envEmpty = .error intNoneTypeErrorMsg ∧
    buildDBConfig envMissingDatabase =
      .ok { host := "localhost", port := 5432, database := none,
            user := some "alice", password := some "pw" } :=
  ⟨(db_config_port_required envEmpty).1 rfl,
   (db_config_port_required envMissingDatabase).2 "5432" 5432 rfl (by decide)⟩
